import Mathlib

/-!
Shallow embedding of the Cloudlette Weather App core
(`scripts/app.js`): the weather-code lookup table, the HTML escaper,
the fetch-with-timeout helper, the weather aggregator `getWeather`,
and the rendering performed by the form-submit listener.

Modelling conventions:
* JSON numbers that the program never computes with (coordinates,
  temperatures) are carried opaquely as their literal text (`String`).
* A JSON field that may be absent is an `Option`; JavaScript's
  `undefined` is `none`.
* Network effects are abstracted: each `fetch` call's outcome is an
  input of type `FetchOutcome`, and the aggregator also returns the
  list of API calls it issued, so that "no network call is made" is
  expressible.
* Clock and timezone: a JavaScript `Date` is an epoch-milliseconds
  instant together with a fixed local-time offset (`JSDate`).
-/

/-- Outcome of one `fetch(url).then(r => r.json())` attempt, as observed by
`fetchJSON`: the abort timer fired first (`timeout`), the fetch itself
rejected (`netError`), or a response arrived with a success flag
(`response.ok`) and, when the body parsed as JSON of the expected shape,
a decoded body (`none` models a JSON decode failure). -/
inductive FetchOutcome (α : Type) where
  | timeout
  | netError
  | response (ok : Bool) (body : Option α)
deriving DecidableEq

/-- Message thrown by `fetchJSON` when the abort timer fires
(app.js line 72). -/
def timedOutMessage : String := "Request timed out. Please try again later."

/-- Embedding of `fetchJSON` (app.js lines 59-76).  The numeric timeout
argument (default 5000 ms) only determines when the abort timer fires and
is absorbed into the `FetchOutcome.timeout` case.  A non-ok status throws
`Error(errorMessage)` inside the `try`, and the `catch` re-throws it
unchanged because its `name` is not `AbortError`; a fetch rejection or a
`json()` decode failure take the same `catch` path. -/
def fetchJSON {α : Type} (outcome : FetchOutcome α) (errorMessage : String) : Except String α :=
  match outcome with
  | .timeout => .error timedOutMessage
  | .netError => .error errorMessage
  | .response ok body =>
    if ok then
      match body with
      | some j => .ok j
      | none => .error errorMessage
    else .error errorMessage

/-- A (description, icon-class) pair: one value of the `weatherIcons`
object (app.js lines 2-31). -/
structure ConditionInfo where
  description : String
  iconClass : String
deriving DecidableEq

/-- Embedding of the `weatherIcons` object literal (app.js lines 2-31) as
an association list from weather code to `ConditionInfo`, in source
order. -/
def weatherIconsTable : List (Int × ConditionInfo) :=
  [ (0,  ⟨"Clear sky", "wi-day-sunny"⟩),
    (1,  ⟨"Mainly clear", "wi-day-sunny-overcast"⟩),
    (2,  ⟨"Partly cloudy", "wi-day-cloudy"⟩),
    (3,  ⟨"Overcast", "wi-cloudy"⟩),
    (45, ⟨"Fog", "wi-fog"⟩),
    (48, ⟨"Depositing rime fog", "wi-fog"⟩),
    (51, ⟨"Light drizzle", "wi-sprinkle"⟩),
    (53, ⟨"Moderate drizzle", "wi-sprinkle"⟩),
    (55, ⟨"Dense drizzle", "wi-showers"⟩),
    (56, ⟨"Light freezing drizzle", "wi-hail"⟩),
    (57, ⟨"Dense freezing drizzle", "wi-hail"⟩),
    (61, ⟨"Slight rain", "wi-sprinkle"⟩),
    (63, ⟨"Moderate rain", "wi-rain"⟩),
    (65, ⟨"Heavy rain", "wi-rain-wind"⟩),
    (66, ⟨"Light freezing rain", "wi-rain-mix"⟩),
    (67, ⟨"Heavy freezing rain", "wi-rain-mix"⟩),
    (71, ⟨"Slight snowfall", "wi-snow"⟩),
    (73, ⟨"Moderate snowfall", "wi-snow"⟩),
    (75, ⟨"Heavy snowfall", "wi-snow"⟩),
    (77, ⟨"Snow grains", "wi-snowflake-cold"⟩),
    (80, ⟨"Slight rain showers", "wi-showers"⟩),
    (81, ⟨"Moderate rain showers", "wi-showers"⟩),
    (82, ⟨"Violent rain showers", "wi-storm-showers"⟩),
    (85, ⟨"Slight snow showers", "wi-snow"⟩),
    (86, ⟨"Heavy snow showers", "wi-snow"⟩),
    (95, ⟨"Thunderstorm", "wi-thunderstorm"⟩),
    (96, ⟨"Thunderstorm with slight hail", "wi-thunderstorm"⟩),
    (99, ⟨"Thunderstorm with heavy hail", "wi-thunderstorm"⟩) ]

/-- Property access `weatherIcons[code]` for an integer code:
`none` models `undefined`. -/
def weatherIcons (code : Int) : Option ConditionInfo :=
  weatherIconsTable.lookup code

/-- The set of weather codes that have an entry in `weatherIcons`. -/
def knownCodes : List Int := weatherIconsTable.map Prod.fst

/-- The fallback pair `{ description: "Unknown condition", iconClass: "wi-na" }`
used on app.js lines 153 and 158. -/
def fallbackInfo : ConditionInfo := ⟨"Unknown condition", "wi-na"⟩

/-- Embedding of `weatherIcons[code] || fallback` (app.js lines 153, 158):
an absent index (`weatherIcons[undefined]`, modelled by `none`) and an
unknown code both yield the fallback.  Object values are never falsy, so
`||` replaces exactly the `undefined` lookups. -/
def lookupIcon (code : Option Int) : ConditionInfo :=
  match code with
  | none => fallbackInfo
  | some c => (weatherIcons c).getD fallbackInfo

/-- A JavaScript `Date` instant: epoch milliseconds plus the fixed
local-time offset (minutes to add to UTC to get local time).  DST
transitions are not modelled; within the 5-day windows at issue the
offset is treated as constant. -/
structure JSDate where
  epochMs : Int
  tzOffsetMin : Int
deriving DecidableEq

/-- Milliseconds per day. -/
def msPerDay : Int := 86400000

/-- The day number (days since 1970-01-01) of the UTC date of an instant;
this is the date that `toISOString()` prints. -/
def utcDayOf (d : JSDate) : Int :=
  Int.ediv d.epochMs msPerDay

/-- The day number of the LOCAL date of an instant — the "current local
date" in the spec's words. -/
def localDayOf (d : JSDate) : Int :=
  Int.ediv (d.epochMs + d.tzOffsetMin * 60000) msPerDay

/-- Embedding of `endDateObj.setDate(today.getDate() + 4)` (app.js
line 130) under the fixed-offset clock model: setting the local
day-of-month 4 higher, keeping the local time of day, advances the
instant by exactly 4 days. -/
def addDays (d : JSDate) (n : Int) : JSDate :=
  { d with epochMs := d.epochMs + n * msPerDay }

/-- Civil date (year, month, day) from a day number, following the
standard days-to-civil algorithm used by date libraries; valid for all
day numbers, used here for the years 0-9999 that `toISOString` prints
as 4 digits. -/
def civilFromDays (z0 : Int) : Int × Int × Int :=
  let z := z0 + 719468
  let era := Int.ediv z 146097
  let doe := z - era * 146097
  let yoe := Int.ediv (doe - Int.ediv doe 1460 + Int.ediv doe 36524 - Int.ediv doe 146096) 365
  let doy := doe - (365 * yoe + Int.ediv yoe 4 - Int.ediv yoe 100)
  let mp := Int.ediv (5 * doy + 2) 153
  let dayv := doy - Int.ediv (153 * mp + 2) 5 + 1
  let m := if mp < 10 then mp + 3 else mp - 9
  let y := yoe + era * 400
  (if m ≤ 2 then y + 1 else y, m, dayv)

/-- The decimal digit character for `n % 10`. -/
def digitChar (n : Nat) : Char :=
  Char.ofNat (48 + n % 10)

/-- Two zero-padded decimal digits. -/
def pad2Chars (n : Nat) : List Char :=
  [digitChar (n / 10), digitChar n]

/-- Four zero-padded decimal digits. -/
def pad4Chars (n : Nat) : List Char :=
  [digitChar (n / 1000), digitChar (n / 100), digitChar (n / 10), digitChar n]

/-- The character list `YYYY-MM-DD` for a civil date. -/
def isoChars (y m d : Int) : List Char :=
  pad4Chars y.toNat ++ '-' :: pad2Chars m.toNat ++ '-' :: pad2Chars d.toNat

/-- The `YYYY-MM-DD` string for a day number. -/
def isoFormatDay (n : Int) : String :=
  match civilFromDays n with
  | (y, m, d) => String.mk (isoChars y m d)

/-- Embedding of `date.toISOString().split("T")[0]` (app.js lines 128,
131): the date part of the ISO string, which is the UTC date of the
instant. -/
def toISODateStr (d : JSDate) : String :=
  isoFormatDay (utcDayOf d)

/-- Spec-side definition, for comparison only.  Modelled from the spec:
"the current local date" formatted as `YYYY-MM-DD` — the date in the
user's local timezone, which `app.js` does NOT use. -/
def localDateStr (d : JSDate) : String :=
  isoFormatDay (localDayOf d)

/-- One entry of the geocoding response's `results` array (the fields
`getWeather` destructures on app.js line 124); coordinates are carried
opaquely as their literal text. -/
structure GeoResult where
  latitude : String
  longitude : String
  name : String
deriving DecidableEq

/-- The geocoding response body: `{ results: [...] }`, with `results`
possibly absent. -/
structure GeocodeData where
  results : Option (List GeoResult)
deriving DecidableEq

/-- The `current_weather` block of the forecast response (fields
destructured on app.js line 152). -/
structure CurrentWeatherRaw where
  temperature : String
  weathercode : Option Int
deriving DecidableEq

/-- The `daily` block of the forecast response: parallel arrays.  `time`
is optional because claim C10 concerns its absence; the other arrays are
read only through indexing, where an out-of-range index already models
absence. -/
structure DailyRaw where
  time : Option (List String)
  weathercode : List Int
  temperature_2m_max : List String
  temperature_2m_min : List String
  sunrise : List String
  sunset : List String
deriving DecidableEq

/-- The forecast response body (app.js lines 141-149). -/
structure ForecastData where
  current_weather : Option CurrentWeatherRaw
  daily : Option DailyRaw
deriving DecidableEq

/-- One element of the `forecast` array built on app.js lines 156-169.
Fields read by out-of-range indexing are `undefined` in JavaScript,
hence `Option` here. -/
structure ForecastDay where
  date : String
  maxTemp : Option String
  minTemp : Option String
  sunrise : Option String
  sunset : Option String
  weatherDescription : String
  iconClass : String
deriving DecidableEq

/-- The `currentWeather` part of `getWeather`'s result (app.js
lines 174-178). -/
structure CurrentWeather where
  temperature : String
  weatherDescription : String
  iconClass : String
deriving DecidableEq

/-- The object `getWeather` resolves with (app.js lines 172-180). -/
structure WeatherReport where
  city : String
  currentWeather : CurrentWeather
  forecast : List ForecastDay
deriving DecidableEq

/-- A network request issued by `getWeather`, identified by endpoint and
the data interpolated into the URL. -/
inductive ApiCall where
  | geocode (city : String)
  | forecast (latitude longitude startDate endDate : String)
deriving DecidableEq

/-- `List.map` with the element index, starting from `i` — the shape of
JavaScript's `Array.prototype.map((x, index) => ...)`. -/
def mapIdxFrom {α β : Type} (f : Nat → α → β) : Nat → List α → List β
  | _, [] => []
  | i, a :: as => f i a :: mapIdxFrom f (i + 1) as

/-- Embedding of the forecast mapping (app.js lines 156-169):
`weatherData.daily.time.map((date, index) => ...)`, where each parallel
array is read at `index` (possibly `undefined`) and the weather code is
resolved through `weatherIcons[...] || fallback`. -/
def buildForecast (times : List String) (daily : DailyRaw) : List ForecastDay :=
  mapIdxFrom (fun index date =>
    let fcWeatherInfo := lookupIcon (daily.weathercode.get? index)
    { date := date
      maxTemp := daily.temperature_2m_max.get? index
      minTemp := daily.temperature_2m_min.get? index
      sunrise := daily.sunrise.get? index
      sunset := daily.sunset.get? index
      weatherDescription := fcWeatherInfo.description
      iconClass := fcWeatherInfo.iconClass }) 0 times

/-- Embedding of the current-weather processing (app.js lines 152-153,
174-178). -/
def processCurrent (cw : CurrentWeatherRaw) : CurrentWeather :=
  let currentWeatherInfo := lookupIcon cw.weathercode
  { temperature := cw.temperature
    weatherDescription := currentWeatherInfo.description
    iconClass := currentWeatherInfo.iconClass }

/-- Error message of app.js line 111. -/
def emptyCityMessage : String := "City name is required."

/-- Fallback message passed to `fetchJSON` for the geocoding call
(app.js line 117). -/
def geocodeFailMessage : String := "Failed to fetch geocode data. Please try again later."

/-- Error message of app.js line 120. -/
def notFoundMessage : String := "City not found. Please enter a valid city name."

/-- Fallback message passed to `fetchJSON` for the forecast call
(app.js line 141). -/
def weatherFailMessage : String := "Failed to fetch weather data. Please try again later."

/-- Error message of app.js line 145. -/
def currentMissingMessage : String := "Current weather data not available at the moment."

/-- Error message of app.js line 148. -/
def dailyMissingMessage : String := "Forecast data not available at the moment."

/-- Modelled from the runtime: the message of the `TypeError` raised by
`weatherData.daily.time.map(...)` (app.js line 156) when `daily.time` is
absent; the exact wording is JavaScript-engine-specific, this one fixed
text stands for it.  The `catch` on line 182 re-throws `error.message`
unchanged. -/
def timeUndefinedMessage : String := "weatherData.daily.time is undefined"

/-- Embedding of `getWeather` (app.js lines 109-185).  Inputs beyond the
city string: the current instant, and the outcomes of the two network
fetches.  Returns the settled promise value (`Except`) together with the
list of API calls issued, in order.  `!city` is true, for a string, only
when it is empty.  The trailing `catch` re-throws `new Error(error.message)`,
which leaves every message unchanged. -/
def getWeather (city : String) (today : JSDate)
    (geo : FetchOutcome GeocodeData) (wx : FetchOutcome ForecastData) :
    Except String WeatherReport × List ApiCall :=
  if city = "" then
    (.error emptyCityMessage, [])
  else
    match fetchJSON geo geocodeFailMessage with
    | .error m => (.error m, [.geocode city])
    | .ok geocodeData =>
      match geocodeData.results with
      | none => (.error notFoundMessage, [.geocode city])
      | some [] => (.error notFoundMessage, [.geocode city])
      | some (first :: _) =>
        let startDate := toISODateStr today
        let endDate := toISODateStr (addDays today 4)
        let forecastCall := ApiCall.forecast first.latitude first.longitude startDate endDate
        let result : Except String WeatherReport :=
          match fetchJSON wx weatherFailMessage with
          | .error m => .error m
          | .ok weatherData =>
            match weatherData.current_weather with
            | none => .error currentMissingMessage
            | some cw =>
              match weatherData.daily with
              | none => .error dailyMissingMessage
              | some daily =>
                match daily.time with
                | none => .error timeUndefinedMessage
                | some times =>
                  .ok { city := first.name
                        currentWeather := processCurrent cw
                        forecast := buildForecast times daily }
        (result, [.geocode city, forecastCall])

/-- Embedding of `String.prototype.trim`: remove leading and trailing
whitespace. -/
def jsTrim (s : String) : String :=
  String.mk (((s.data.dropWhile Char.isWhitespace).reverse.dropWhile Char.isWhitespace).reverse)

/-- Embedding of the submit listener's call path (app.js lines 191, 197):
the input field's value is trimmed before `getWeather` is invoked. -/
def submitCity (input : String) (today : JSDate)
    (geo : FetchOutcome GeocodeData) (wx : FetchOutcome ForecastData) :
    Except String WeatherReport × List ApiCall :=
  getWeather (jsTrim input) today geo wx

/-- Embedding of one character's replacement in `escapeHtml` (app.js
lines 39-48): the regex `/[&<>"']/g` with the `map` object. -/
def escapeChar (c : Char) : List Char :=
  if c = '&' then "&amp;".data
  else if c = '<' then "&lt;".data
  else if c = '>' then "&gt;".data
  else if c = '"' then "&quot;".data
  else if c = '\'' then "&#039;".data
  else [c]

/-- Embedding of `escapeHtml` (app.js lines 39-48). -/
def escapeHtml (text : String) : String :=
  String.mk (List.flatten (text.data.map escapeChar))

/-- JavaScript template-literal interpolation of a possibly-undefined
value: `undefined` prints as the text `undefined`. -/
def renderOptStr (o : Option String) : String :=
  o.getD "undefined"

/-- Embedding of the heading built on app.js lines 200-203: the only
place the city name enters the markup, and it passes through
`escapeHtml`. -/
def renderCityHeading (city : String) : String :=
  "<h2>Weather in " ++ escapeHtml city ++ "</h2>"

/-- Embedding of the current-weather block markup (app.js
lines 204-210). -/
def renderCurrent (cur : CurrentWeather) : String :=
  "\n      <div class=\"current-weather\">\n        <i class=\"wi " ++ cur.iconClass ++
  "\" style=\"font-size: 80px;\"></i>\n        <p>Temperature: " ++ cur.temperature ++
  "°C</p>\n        <p>Conditions: " ++ cur.weatherDescription ++ "</p>\n      </div>\n    "

/-- Embedding of one forecast-day block (app.js lines 216-225);
`fmtTime` stands for `s => new Date(s).toLocaleTimeString([], ...)`,
whose output is locale- and engine-dependent. -/
def renderDay (fmtTime : Option String → String) (day : ForecastDay) : String :=
  "\n        <div class=\"forecast-day\">\n          <h4>" ++ day.date ++
  "</h4>\n          <i class=\"wi " ++ day.iconClass ++
  "\" style=\"font-size: 48px;\"></i>\n          <p>Max: " ++ renderOptStr day.maxTemp ++
  "°C, Min: " ++ renderOptStr day.minTemp ++ "°C</p>\n          <p>Sunrise: " ++
  fmtTime day.sunrise ++ "</p>\n          <p>Sunset: " ++ fmtTime day.sunset ++
  "</p>\n          <p>" ++ day.weatherDescription ++ "</p>\n        </div>\n      "

/-- The markup built after the city heading (app.js lines 204-227): the
current-weather block, the forecast heading, and the forecast days.  The
city name is not an input, so by construction it cannot occur here. -/
def renderRest (cur : CurrentWeather) (forecast : List ForecastDay)
    (fmtTime : Option String → String) : String :=
  renderCurrent cur ++ "<h3>5-Day Forecast</h3>" ++ "<div class=\"forecast-container\">" ++
  String.join (forecast.map (renderDay fmtTime)) ++ "</div>"

/-- Embedding of the full markup assigned to `resultDiv.innerHTML`
(app.js lines 199-229). -/
def renderReport (report : WeatherReport) (fmtTime : Option String → String) : String :=
  renderCityHeading report.city ++ renderRest report.currentWeather report.forecast fmtTime

/-- `startsWithChars needle l` : does `l` start with `needle`? -/
def startsWithChars : List Char → List Char → Bool
  | [], _ => true
  | _ :: _, [] => false
  | a :: as, b :: bs => a == b && startsWithChars as bs

/-- `hasSubChars needle l` : does `needle` occur contiguously in `l`? -/
def hasSubChars (needle : List Char) : List Char → Bool
  | [] => startsWithChars needle []
  | l@(_ :: t) => startsWithChars needle l || hasSubChars needle t

/-- A fixed instant with UTC local time, usable wherever the clock value
is irrelevant. -/
def dateZero : JSDate := { epochMs := 0, tzOffsetMin := 0 }

/-- The geocoding result of the spec's Paris end-to-end scenario. -/
def parisResult : GeoResult :=
  { latitude := "48.8566", longitude := "2.3522", name := "Paris" }

/-- The geocoding response body of the Paris scenario. -/
def parisGeocode : GeocodeData := { results := some [parisResult] }

/-- Geocoding outcome of the spec's Paris end-to-end scenario. -/
def geoParisOutcome : FetchOutcome GeocodeData :=
  .response true (some parisGeocode)

/-- The `daily` block of the Paris scenario: 5-entry parallel arrays. -/
def parisDaily : DailyRaw :=
  { time := some ["2025-01-01", "2025-01-02", "2025-01-03", "2025-01-04", "2025-01-05"]
    weathercode := [2, 3, 61, 0, 1]
    temperature_2m_max := ["10.1", "11.2", "12.3", "13.4", "14.5"]
    temperature_2m_min := ["1.1", "2.2", "3.3", "4.4", "5.5"]
    sunrise := ["2025-01-01T08:43", "2025-01-02T08:43", "2025-01-03T08:43",
                "2025-01-04T08:42", "2025-01-05T08:42"]
    sunset := ["2025-01-01T17:04", "2025-01-02T17:05", "2025-01-03T17:06",
               "2025-01-04T17:07", "2025-01-05T17:09"] }

/-- The forecast response body of the Paris scenario: current weather
code 2 plus `parisDaily`. -/
def parisForecast : ForecastData :=
  { current_weather := some { temperature := "18.4", weathercode := some 2 }
    daily := some parisDaily }

/-- Forecast outcome of the spec's Paris end-to-end scenario. -/
def wxParisOutcome : FetchOutcome ForecastData :=
  .response true (some parisForecast)

/-- A forecast response with a populated `daily` block but no
`current_weather` block. -/
def noCurrentForecast : ForecastData :=
  { current_weather := none
    daily := some
      { time := some ["2025-01-01"], weathercode := [2],
        temperature_2m_max := ["10.1"], temperature_2m_min := ["1.1"],
        sunrise := ["2025-01-01T08:43"], sunset := ["2025-01-01T17:04"] } }

/-- A key absent from an association list is not found by `lookup`. -/
theorem lookup_none_of_key_not_mem {c : Int} :
    ∀ {l : List (Int × ConditionInfo)}, c ∉ l.map Prod.fst → l.lookup c = none := by
  intro l
  induction l with
  | nil => intro _; rfl
  | cons p t ih =>
    intro h
    rw [List.map_cons, List.mem_cons] at h
    push_neg at h
    rcases p with ⟨k, v⟩
    have hck : (c == k) = false := by
      simp only [beq_eq_false_iff_ne, ne_eq]
      exact h.1
    simp only [List.lookup, hck]
    exact ih h.2

/-- `mapIdxFrom` preserves length. -/
theorem length_mapIdxFrom {α β : Type} (f : Nat → α → β) :
    ∀ (k : Nat) (l : List α), (mapIdxFrom f k l).length = l.length := by
  intro k l
  induction l generalizing k with
  | nil => rfl
  | cons a as ih => simp [mapIdxFrom, ih]

/-- Index access into `mapIdxFrom`. -/
theorem get?_mapIdxFrom {α β : Type} (f : Nat → α → β) :
    ∀ (k i : Nat) (l : List α), (mapIdxFrom f k l).get? i = (l.get? i).map (f (k + i)) := by
  intro k i l
  induction l generalizing k i with
  | nil => simp [mapIdxFrom]
  | cons a as ih =>
    cases i with
    | zero => simp [mapIdxFrom]
    | succ j =>
      have harith : k + 1 + j = k + (j + 1) := by omega
      simp only [mapIdxFrom, List.get?]
      rw [ih (k + 1) j, harith]

/-- `buildForecast` preserves the length of `daily.time`. -/
theorem length_buildForecast (times : List String) (daily : DailyRaw) :
    (buildForecast times daily).length = times.length :=
  length_mapIdxFrom _ 0 times

/-- Field-level description of the `i`-th forecast entry. -/
theorem buildForecast_fields (times : List String) (daily : DailyRaw) (i : Nat)
    (fd : ForecastDay) (h : (buildForecast times daily).get? i = some fd) :
    (∃ date, times.get? i = some date ∧ fd.date = date) ∧
    fd.maxTemp = daily.temperature_2m_max.get? i ∧
    fd.minTemp = daily.temperature_2m_min.get? i ∧
    fd.sunrise = daily.sunrise.get? i ∧
    fd.sunset = daily.sunset.get? i ∧
    fd.weatherDescription = (lookupIcon (daily.weathercode.get? i)).description ∧
    fd.iconClass = (lookupIcon (daily.weathercode.get? i)).iconClass := by
  unfold buildForecast at h
  rw [get?_mapIdxFrom] at h
  rcases htime : times.get? i with _ | date
  · rw [htime] at h
    simp at h
  · rw [htime] at h
    simp only [Option.map_some'] at h
    obtain rfl := Option.some.inj h
    refine ⟨⟨date, rfl, rfl⟩, ?_, ?_, ?_, ?_, ?_, ?_⟩ <;>
      simp only [Nat.zero_add]

/-- Shape of a successful run of `getWeather`: result object and the two
API calls, in order. -/
theorem getWeather_eq_ok (today : JSDate) {city : String}
    {geo : FetchOutcome GeocodeData} {wx : FetchOutcome ForecastData}
    {gd : GeocodeData} {first : GeoResult} {rest : List GeoResult}
    {wd : ForecastData} {cw : CurrentWeatherRaw} {daily : DailyRaw} {times : List String}
    (hcity : city ≠ "")
    (hgeo : fetchJSON geo geocodeFailMessage = .ok gd)
    (hres : gd.results = some (first :: rest))
    (hwx : fetchJSON wx weatherFailMessage = .ok wd)
    (hcw : wd.current_weather = some cw)
    (hdaily : wd.daily = some daily)
    (htime : daily.time = some times) :
    getWeather city today geo wx =
      (.ok { city := first.name
             currentWeather := processCurrent cw
             forecast := buildForecast times daily },
       [.geocode city,
        .forecast first.latitude first.longitude
          (toISODateStr today) (toISODateStr (addDays today 4))]) := by
  unfold getWeather
  rw [if_neg hcity]
  simp only [hgeo, hres, hwx, hcw, hdaily, htime]

/-- The API calls issued once `getWeather` reaches the forecast step,
regardless of the forecast outcome. -/
theorem getWeather_calls (today : JSDate) {city : String}
    {geo : FetchOutcome GeocodeData} (wx : FetchOutcome ForecastData)
    {gd : GeocodeData} {first : GeoResult} {rest : List GeoResult}
    (hcity : city ≠ "")
    (hgeo : fetchJSON geo geocodeFailMessage = .ok gd)
    (hres : gd.results = some (first :: rest)) :
    (getWeather city today geo wx).2 =
      [.geocode city,
       .forecast first.latitude first.longitude
         (toISODateStr today) (toISODateStr (addDays today 4))] := by
  unfold getWeather
  rw [if_neg hcity]
  simp only [hgeo, hres]

/-- Error results of `getWeather` once the forecast response body is
available: the three validation/processing failures. -/
theorem getWeather_eq_error (today : JSDate) {city : String}
    {geo : FetchOutcome GeocodeData} {wx : FetchOutcome ForecastData}
    {gd : GeocodeData} {first : GeoResult} {rest : List GeoResult}
    {wd : ForecastData}
    (hcity : city ≠ "")
    (hgeo : fetchJSON geo geocodeFailMessage = .ok gd)
    (hres : gd.results = some (first :: rest))
    (hwx : fetchJSON wx weatherFailMessage = .ok wd) :
    (wd.current_weather = none → (getWeather city today geo wx).1 = .error currentMissingMessage) ∧
    (∀ cw, wd.current_weather = some cw → wd.daily = none →
      (getWeather city today geo wx).1 = .error dailyMissingMessage) ∧
    (∀ cw daily, wd.current_weather = some cw → wd.daily = some daily → daily.time = none →
      (getWeather city today geo wx).1 = .error timeUndefinedMessage) := by
  refine ⟨fun hcw => ?_, fun cw hcw hd => ?_, fun cw daily hcw hd ht => ?_⟩
  · unfold getWeather
    rw [if_neg hcity]
    simp only [hgeo, hres, hwx, hcw]
  · unfold getWeather
    rw [if_neg hcity]
    simp only [hgeo, hres, hwx, hcw, hd]
  · unfold getWeather
    rw [if_neg hcity]
    simp only [hgeo, hres, hwx, hcw, hd, ht]

/-- No replacement chunk of `escapeChar` contains a raw angle bracket. -/
theorem escapeChar_no_angle (c : Char) :
    '<' ∉ escapeChar c ∧ '>' ∉ escapeChar c := by
  unfold escapeChar
  split_ifs with h1 h2 h3 h4 h5
  · exact ⟨by decide, by decide⟩
  · exact ⟨by decide, by decide⟩
  · exact ⟨by decide, by decide⟩
  · exact ⟨by decide, by decide⟩
  · exact ⟨by decide, by decide⟩
  · constructor
    · intro hmem
      rw [List.mem_singleton] at hmem
      exact h2 hmem.symm
    · intro hmem
      rw [List.mem_singleton] at hmem
      exact h3 hmem.symm

/-- `escapeHtml` output never contains a raw `<` or `>`. -/
theorem escapeHtml_no_angle (s : String) :
    '<' ∉ (escapeHtml s).data ∧ '>' ∉ (escapeHtml s).data := by
  unfold escapeHtml
  constructor <;>
    · intro hmem
      rw [List.mem_flatten] at hmem
      obtain ⟨chunk, hchunk, hc⟩ := hmem
      rw [List.mem_map] at hchunk
      obtain ⟨c, -, rfl⟩ := hchunk
      first
        | exact (escapeChar_no_angle c).1 hc
        | exact (escapeChar_no_angle c).2 hc

/-- If a non-empty needle occurs in a character list, its head occurs in
the list. -/
theorem mem_of_hasSubChars_cons {c : Char} {cs : List Char} :
    ∀ {l : List Char}, hasSubChars (c :: cs) l = true → c ∈ l := by
  intro l
  induction l with
  | nil => intro h; simp [hasSubChars, startsWithChars] at h
  | cons b bs ih =>
    intro h
    rw [hasSubChars, Bool.or_eq_true] at h
    rcases h with h | h
    · rw [startsWithChars, Bool.and_eq_true] at h
      rw [List.mem_cons]
      exact Or.inl (eq_of_beq h.1)
    · exact List.mem_cons_of_mem b (ih h)

/-- `digitChar` always yields a decimal digit character. -/
theorem digitChar_isDigit (n : Nat) : (digitChar n).isDigit = true := by
  unfold digitChar
  have h : n % 10 < 10 := Nat.mod_lt _ (by norm_num)
  generalize n % 10 = k at h
  interval_cases k <;> decide

/-- Does a string have the shape `YYYY-MM-DD`: ten characters, dashes at
positions 4 and 7, decimal digits everywhere else? -/
def checkIsoShape (s : String) : Bool :=
  match s.data with
  | [y1, y2, y3, y4, h1, m1, m2, h2, d1, d2] =>
    y1.isDigit && y2.isDigit && y3.isDigit && y4.isDigit && h1 == '-' &&
    m1.isDigit && m2.isDigit && h2 == '-' && d1.isDigit && d2.isDigit
  | _ => false

/-- Every formatted day has the `YYYY-MM-DD` shape. -/
theorem checkIsoShape_isoFormatDay (n : Int) :
    checkIsoShape (isoFormatDay n) = true := by
  unfold isoFormatDay
  rcases civilFromDays n with ⟨y, m, d⟩
  simp only [checkIsoShape, isoChars, pad4Chars, pad2Chars, List.cons_append, List.nil_append]
  simp [digitChar_isDigit]

/-- Advancing an instant by whole days advances its UTC day number by as
much. -/
theorem utcDayOf_addDays (d : JSDate) (n : Int) :
    utcDayOf (addDays d n) = utcDayOf d + n := by
  unfold utcDayOf addDays msPerDay
  exact Int.add_mul_ediv_right _ _ (by norm_num)

/-- Claim C1, as stated, is false: for the unknown weather code 100 the
lookup returns the fallback with icon class `"wi-na"`, not the icon
identifier `"not-available"`; no value in the table or fallback carries
`"not-available"`. -/
theorem c1_counterexample :
    lookupIcon (some 100) = { description := "Unknown condition", iconClass := "wi-na" } ∧
    (lookupIcon (some 100)).iconClass ≠ "not-available" ∧
    weatherIcons 100 = none := by
  refine ⟨by decide, by decide, by decide⟩

/-- Claim C1 (amended): for every integer weather code outside the known
condition-code set, the lookup (and hence the resolution of the current
weather code and of each daily weather code inside `getWeather`, which go
through `lookupIcon`) returns the fixed fallback pair with description
"Unknown condition" and icon class "wi-na". -/
theorem c1_unknown_code_fallback (c : Int) (hc : c ∉ knownCodes) :
    lookupIcon (some c) = fallbackInfo ∧
    fallbackInfo.description = "Unknown condition" ∧
    fallbackInfo.iconClass = "wi-na" ∧
    (∀ cw : CurrentWeatherRaw, cw.weathercode = some c →
      (processCurrent cw).weatherDescription = "Unknown condition" ∧
      (processCurrent cw).iconClass = "wi-na") ∧
    (∀ (times : List String) (daily : DailyRaw) (i : Nat) (fd : ForecastDay),
      daily.weathercode.get? i = some c →
      (buildForecast times daily).get? i = some fd →
      fd.weatherDescription = "Unknown condition" ∧ fd.iconClass = "wi-na") := by
  have hlook : lookupIcon (some c) = fallbackInfo := by
    show (weatherIcons c).getD fallbackInfo = fallbackInfo
    unfold weatherIcons
    rw [lookup_none_of_key_not_mem hc]
    rfl
  refine ⟨hlook, rfl, rfl, ?_, ?_⟩
  · intro cw hcw
    simp only [processCurrent, hcw, hlook]
    exact ⟨rfl, rfl⟩
  · intro times daily i fd hwcode hfd
    obtain ⟨-, -, -, -, -, hdesc, hicon⟩ := buildForecast_fields times daily i fd hfd
    rw [hwcode, hlook] at hdesc hicon
    exact ⟨hdesc, hicon⟩

/-- Witness for `c1_unknown_code_fallback` at the concrete unknown
code 100. -/
theorem c1_unknown_code_fallback_witness :
    ((100 : Int) ∉ knownCodes) ∧ lookupIcon (some 100) = fallbackInfo :=
  ⟨by decide, (c1_unknown_code_fallback 100 (by decide)).1⟩

/-- Claim C2, as stated, is false: `getWeather` passes the all-whitespace
city `" "` through its `!city` check (only the empty string is falsy) and
issues the geocoding network call; the failure that results here is the
not-found error, not the empty-input error. -/
theorem c2_counterexample :
    getWeather " " dateZero (.response true (some { results := some [] })) .netError =
      (.error notFoundMessage, [.geocode " "]) ∧
    notFoundMessage ≠ emptyCityMessage := by
  exact ⟨rfl, by decide⟩

/-- Claim C2 (amended): the submit pipeline trims the input field before
calling `getWeather`, so a city string that is empty after trimming (in
particular empty or all-whitespace user input) fails with the empty-input
error and no network call is issued; `getWeather` itself rejects exactly
the empty string before any call. -/
theorem c2_empty_after_trim (input : String) (today : JSDate)
    (geo : FetchOutcome GeocodeData) (wx : FetchOutcome ForecastData)
    (h : jsTrim input = "") :
    submitCity input today geo wx = (.error emptyCityMessage, []) ∧
    ∀ city : String, city = "" → getWeather city today geo wx = (.error emptyCityMessage, []) := by
  constructor
  · unfold submitCity
    rw [h]
    unfold getWeather
    rw [if_pos rfl]
  · intro city hcity
    subst hcity
    unfold getWeather
    rw [if_pos rfl]

/-- Witness for `c2_empty_after_trim` on the all-whitespace input
`"   "`. -/
theorem c2_empty_after_trim_witness :
    (jsTrim "   " = "") ∧
    submitCity "   " dateZero FetchOutcome.netError FetchOutcome.netError =
      (.error emptyCityMessage, []) :=
  ⟨by decide, (c2_empty_after_trim "   " dateZero _ _ (by decide)).1⟩

/-- Claim C5: a timed-out request fails with the fixed "Request timed
out" message; every other `fetchJSON` failure — network error, non-ok
HTTP status, JSON decode failure — fails with exactly the caller-supplied
fallback message; and the timeout message is distinct from both fallback
messages this program supplies. -/
theorem c5_fetch_error_messages {α : Type} (msg : String) (out : FetchOutcome α)
    (hout : out = .netError ∨ (∃ body, out = .response false body) ∨ out = .response true none) :
    fetchJSON (FetchOutcome.timeout : FetchOutcome α) msg = .error timedOutMessage ∧
    fetchJSON out msg = .error msg ∧
    timedOutMessage ≠ geocodeFailMessage ∧
    timedOutMessage ≠ weatherFailMessage := by
  refine ⟨rfl, ?_, by decide, by decide⟩
  rcases hout with rfl | ⟨body, rfl⟩ | rfl
  · rfl
  · rfl
  · rfl

/-- Witness for `c5_fetch_error_messages` at a network-error outcome with
the geocoding fallback message. -/
theorem c5_fetch_error_messages_witness :
    fetchJSON (FetchOutcome.timeout : FetchOutcome GeocodeData) geocodeFailMessage =
      .error timedOutMessage ∧
    fetchJSON (FetchOutcome.netError : FetchOutcome GeocodeData) geocodeFailMessage =
      .error geocodeFailMessage ∧
    timedOutMessage ≠ geocodeFailMessage ∧
    timedOutMessage ≠ weatherFailMessage :=
  c5_fetch_error_messages geocodeFailMessage FetchOutcome.netError (Or.inl rfl)

/-- Claim C7: when the forecast response lacks `current_weather`,
`getWeather` fails with the incomplete-data error whatever the `daily`
block holds, and no report is returned. -/
theorem c7_missing_current_weather (city : String) (today : JSDate)
    (geo : FetchOutcome GeocodeData) (wx : FetchOutcome ForecastData)
    (gd : GeocodeData) (first : GeoResult) (rest : List GeoResult) (wd : ForecastData)
    (hcity : city ≠ "")
    (hgeo : fetchJSON geo geocodeFailMessage = .ok gd)
    (hres : gd.results = some (first :: rest))
    (hwx : fetchJSON wx weatherFailMessage = .ok wd)
    (hcw : wd.current_weather = none) :
    (getWeather city today geo wx).1 = .error currentMissingMessage ∧
    ∀ report, (getWeather city today geo wx).1 ≠ .ok report := by
  have h := (getWeather_eq_error today hcity hgeo hres hwx).1 hcw
  refine ⟨h, fun report hr => ?_⟩
  rw [h] at hr
  exact Except.noConfusion hr

/-- Witness for `c7_missing_current_weather`: a forecast response with a
fully populated `daily` block but no `current_weather`. -/
theorem c7_missing_current_weather_witness :
    (getWeather "Paris" dateZero geoParisOutcome (.response true (some noCurrentForecast))).1 =
      .error currentMissingMessage :=
  (c7_missing_current_weather "Paris" dateZero geoParisOutcome
    (.response true (some noCurrentForecast)) parisGeocode parisResult [] noCurrentForecast
    (by decide) rfl rfl rfl rfl).1

/-- Claim C3, as stated, is false: the window endpoints come from
`toISOString()`, i.e. from the UTC date.  At the instant 1970-01-01T23:00Z
with local offset +120 minutes the current local date is 1970-01-02, yet
the issued forecast request's window is 1970-01-01 through 1970-01-05. -/
theorem c3_counterexample :
    (getWeather "Paris" { epochMs := 82800000, tzOffsetMin := 120 } geoParisOutcome .netError).2 =
      [.geocode "Paris", .forecast "48.8566" "2.3522" "1970-01-01" "1970-01-05"] ∧
    localDateStr { epochMs := 82800000, tzOffsetMin := 120 } = "1970-01-02" ∧
    ("1970-01-01" : String) ≠ "1970-01-02" := by
  refine ⟨by decide, by decide, by decide⟩

/-- Claim C3 (amended): whenever `getWeather` reaches the forecast step,
the requested window is the 5-day inclusive range of UTC dates — day
numbers `utcDayOf today` through `utcDayOf today + 4`, as printed by
`toISOString()`, which equal the local dates only when local and UTC
dates coincide — and both endpoints have the `YYYY-MM-DD` shape. -/
theorem c3_window_utc_five_days (city : String) (today : JSDate)
    (geo : FetchOutcome GeocodeData) (wx : FetchOutcome ForecastData)
    (gd : GeocodeData) (first : GeoResult) (rest : List GeoResult)
    (hcity : city ≠ "")
    (hgeo : fetchJSON geo geocodeFailMessage = .ok gd)
    (hres : gd.results = some (first :: rest)) :
    (getWeather city today geo wx).2 =
      [.geocode city,
       .forecast first.latitude first.longitude
         (isoFormatDay (utcDayOf today)) (isoFormatDay (utcDayOf today + 4))] ∧
    checkIsoShape (isoFormatDay (utcDayOf today)) = true ∧
    checkIsoShape (isoFormatDay (utcDayOf today + 4)) = true := by
  refine ⟨?_, checkIsoShape_isoFormatDay _, checkIsoShape_isoFormatDay _⟩
  rw [getWeather_calls today wx hcity hgeo hres]
  unfold toISODateStr
  rw [utcDayOf_addDays]

/-- Witness for `c3_window_utc_five_days` on the Paris scenario at the
epoch instant. -/
theorem c3_window_utc_five_days_witness :
    (("Paris" : String) ≠ "") ∧
    ((getWeather "Paris" dateZero geoParisOutcome wxParisOutcome).2 =
      [.geocode "Paris",
       .forecast parisResult.latitude parisResult.longitude
         (isoFormatDay (utcDayOf dateZero)) (isoFormatDay (utcDayOf dateZero + 4))] ∧
     checkIsoShape (isoFormatDay (utcDayOf dateZero)) = true ∧
     checkIsoShape (isoFormatDay (utcDayOf dateZero + 4)) = true) :=
  ⟨by decide,
   c3_window_utc_five_days "Paris" dateZero geoParisOutcome wxParisOutcome
     parisGeocode parisResult [] (by decide) rfl rfl⟩

/-- Claim C4: for a well-formed forecast response whose `daily.time` has
length 5, the returned forecast has exactly 5 entries, in the same order
as the API's daily arrays: the `i`-th entry's date is the `i`-th entry of
`daily.time`. -/
theorem c4_five_entries_in_order (city : String) (today : JSDate)
    (geo : FetchOutcome GeocodeData) (wx : FetchOutcome ForecastData)
    (gd : GeocodeData) (first : GeoResult) (rest : List GeoResult)
    (wd : ForecastData) (cw : CurrentWeatherRaw) (daily : DailyRaw) (times : List String)
    (hcity : city ≠ "")
    (hgeo : fetchJSON geo geocodeFailMessage = .ok gd)
    (hres : gd.results = some (first :: rest))
    (hwx : fetchJSON wx weatherFailMessage = .ok wd)
    (hcw : wd.current_weather = some cw)
    (hdaily : wd.daily = some daily)
    (htime : daily.time = some times)
    (hlen : times.length = 5) :
    ∃ report, (getWeather city today geo wx).1 = .ok report ∧
      report.forecast.length = 5 ∧
      ∀ (i : Nat) (fd : ForecastDay), report.forecast.get? i = some fd →
        times.get? i = some fd.date := by
  have hok := getWeather_eq_ok today hcity hgeo hres hwx hcw hdaily htime
  refine ⟨{ city := first.name
            currentWeather := processCurrent cw
            forecast := buildForecast times daily }, ?_, ?_, ?_⟩
  · rw [hok]
  · show (buildForecast times daily).length = 5
    rw [length_buildForecast, hlen]
  · intro i fd hfd
    obtain ⟨⟨date, hdate, hfddate⟩, -⟩ := buildForecast_fields times daily i fd hfd
    rw [hfddate]
    exact hdate

/-- Witness for `c4_five_entries_in_order` on the Paris scenario. -/
theorem c4_five_entries_in_order_witness :
    ∃ report, (getWeather "Paris" dateZero geoParisOutcome wxParisOutcome).1 = .ok report ∧
      report.forecast.length = 5 ∧
      ∀ (i : Nat) (fd : ForecastDay), report.forecast.get? i = some fd →
        ["2025-01-01", "2025-01-02", "2025-01-03", "2025-01-04", "2025-01-05"].get? i =
          some fd.date :=
  c4_five_entries_in_order "Paris" dateZero geoParisOutcome wxParisOutcome parisGeocode
    parisResult [] parisForecast { temperature := "18.4", weathercode := some 2 } parisDaily
    ["2025-01-01", "2025-01-02", "2025-01-03", "2025-01-04", "2025-01-05"]
    (by decide) rfl rfl rfl rfl rfl rfl rfl

/-- Claim C8: whenever the geocoding response has a non-empty results
list and the forecast response is well-formed, the returned report
carries the first geocoding result's name — the geocoder's normalized
city name, not the user's raw input. -/
theorem c8_uses_geocoder_name (city : String) (today : JSDate)
    (geo : FetchOutcome GeocodeData) (wx : FetchOutcome ForecastData)
    (gd : GeocodeData) (first : GeoResult) (rest : List GeoResult)
    (wd : ForecastData) (cw : CurrentWeatherRaw) (daily : DailyRaw) (times : List String)
    (hcity : city ≠ "")
    (hgeo : fetchJSON geo geocodeFailMessage = .ok gd)
    (hres : gd.results = some (first :: rest))
    (hwx : fetchJSON wx weatherFailMessage = .ok wd)
    (hcw : wd.current_weather = some cw)
    (hdaily : wd.daily = some daily)
    (htime : daily.time = some times) :
    ∃ report, (getWeather city today geo wx).1 = .ok report ∧ report.city = first.name := by
  have hok := getWeather_eq_ok today hcity hgeo hres hwx hcw hdaily htime
  refine ⟨{ city := first.name
            currentWeather := processCurrent cw
            forecast := buildForecast times daily }, ?_, rfl⟩
  rw [hok]

/-- Witness for `c8_uses_geocoder_name`: the spec's Paris end-to-end
scenario — result city "Paris", current description "Partly cloudy"
(code 2), 5-entry forecast. -/
theorem c8_uses_geocoder_name_witness :
    ∃ report, (getWeather "Paris" dateZero geoParisOutcome wxParisOutcome).1 = .ok report ∧
      report.city = "Paris" ∧
      report.currentWeather.weatherDescription = "Partly cloudy" ∧
      report.forecast.length = 5 := by
  obtain ⟨r, hr, hname⟩ := c8_uses_geocoder_name "Paris" dateZero geoParisOutcome wxParisOutcome
    parisGeocode parisResult [] parisForecast { temperature := "18.4", weathercode := some 2 }
    parisDaily ["2025-01-01", "2025-01-02", "2025-01-03", "2025-01-04", "2025-01-05"]
    (by decide) rfl rfl rfl rfl rfl rfl
  have hval : (getWeather "Paris" dateZero geoParisOutcome wxParisOutcome).1 =
      .ok { city := "Paris"
            currentWeather :=
              { temperature := "18.4", weatherDescription := "Partly cloudy",
                iconClass := "wi-day-cloudy" }
            forecast := buildForecast
              ["2025-01-01", "2025-01-02", "2025-01-03", "2025-01-04", "2025-01-05"]
              parisDaily } := rfl
  rw [hval] at hr
  obtain rfl := Except.ok.inj hr
  exact ⟨_, hval, hname, rfl, by decide⟩

/-- A `daily` block whose parallel arrays have mismatched lengths:
3 dates, 1 weather code, 2 max temperatures, 1 min temperature, no
sunrise entries, 5 sunset entries. -/
def mismatchDaily : DailyRaw :=
  { time := some ["2025-01-01", "2025-01-02", "2025-01-03"]
    weathercode := [2]
    temperature_2m_max := ["10.1", "11.2"]
    temperature_2m_min := ["1.1"]
    sunrise := []
    sunset := ["2025-01-01T17:04", "2025-01-02T17:05", "2025-01-03T17:06",
               "2025-01-04T17:07", "2025-01-05T17:09"] }

/-- A forecast response built around `mismatchDaily`. -/
def mismatchForecast : ForecastData :=
  { current_weather := some { temperature := "18.4", weathercode := some 2 }
    daily := some mismatchDaily }

/-- Claim C9: the forecast sequence always has exactly as many entries as
`daily.time`, even when the other parallel arrays are shorter or longer:
an out-of-range index yields an absent (`undefined`) field rather than an
error, a missing weather code resolves to the fallback description and
icon, and surplus entries of the other arrays are ignored. -/
theorem c9_forecast_length_robust (city : String) (today : JSDate)
    (geo : FetchOutcome GeocodeData) (wx : FetchOutcome ForecastData)
    (gd : GeocodeData) (first : GeoResult) (rest : List GeoResult)
    (wd : ForecastData) (cw : CurrentWeatherRaw) (daily : DailyRaw) (times : List String)
    (hcity : city ≠ "")
    (hgeo : fetchJSON geo geocodeFailMessage = .ok gd)
    (hres : gd.results = some (first :: rest))
    (hwx : fetchJSON wx weatherFailMessage = .ok wd)
    (hcw : wd.current_weather = some cw)
    (hdaily : wd.daily = some daily)
    (htime : daily.time = some times) :
    ∃ report, (getWeather city today geo wx).1 = .ok report ∧
      report.forecast.length = times.length ∧
      ∀ (i : Nat) (fd : ForecastDay), report.forecast.get? i = some fd →
        fd.maxTemp = daily.temperature_2m_max.get? i ∧
        fd.minTemp = daily.temperature_2m_min.get? i ∧
        fd.sunrise = daily.sunrise.get? i ∧
        fd.sunset = daily.sunset.get? i ∧
        (daily.weathercode.get? i = none →
          fd.weatherDescription = "Unknown condition" ∧ fd.iconClass = "wi-na") := by
  have hok := getWeather_eq_ok today hcity hgeo hres hwx hcw hdaily htime
  refine ⟨{ city := first.name
            currentWeather := processCurrent cw
            forecast := buildForecast times daily }, ?_, ?_, ?_⟩
  · rw [hok]
  · exact length_buildForecast times daily
  · intro i fd hfd
    obtain ⟨-, h1, h2, h3, h4, hdesc, hicon⟩ := buildForecast_fields times daily i fd hfd
    refine ⟨h1, h2, h3, h4, fun hnone => ?_⟩
    rw [hnone] at hdesc hicon
    exact ⟨hdesc, hicon⟩

/-- Witness for `c9_forecast_length_robust` on the mismatched-lengths
response: 3 forecast entries, and at index 2 the max temperature is
absent and the weather description falls back. -/
theorem c9_forecast_length_robust_witness :
    ∃ report,
      (getWeather "Paris" dateZero geoParisOutcome (.response true (some mismatchForecast))).1 =
        .ok report ∧
      report.forecast.length = 3 ∧
      ∀ fd : ForecastDay, report.forecast.get? 2 = some fd →
        fd.maxTemp = none ∧ fd.weatherDescription = "Unknown condition" := by
  obtain ⟨r, hr, hlen, hidx⟩ := c9_forecast_length_robust "Paris" dateZero geoParisOutcome
    (.response true (some mismatchForecast)) parisGeocode parisResult [] mismatchForecast
    { temperature := "18.4", weathercode := some 2 } mismatchDaily
    ["2025-01-01", "2025-01-02", "2025-01-03"] (by decide) rfl rfl rfl rfl rfl rfl
  refine ⟨r, hr, hlen, fun fd hfd => ?_⟩
  have h := hidx 2 fd hfd
  exact ⟨h.1, (h.2.2.2.2 rfl).1⟩

/-- A `daily` block with no `time` array. -/
def noTimeDaily : DailyRaw :=
  { time := none
    weathercode := [2]
    temperature_2m_max := ["10.1"]
    temperature_2m_min := ["1.1"]
    sunrise := ["2025-01-01T08:43"]
    sunset := ["2025-01-01T17:04"] }

/-- A forecast response with `current_weather` and `daily` present but
`daily.time` absent. -/
def noTimeForecast : ForecastData :=
  { current_weather := some { temperature := "18.4", weathercode := some 2 }
    daily := some noTimeDaily }

/-- Claim C10: when the response has a `daily` block without a `time`
array, the step-5 validation (which only checks that `current_weather`
and `daily` exist) passes, and `getWeather` fails from the mapping step —
modelled by the fixed `timeUndefinedMessage` standing for the runtime
`TypeError` of `daily.time.map`, re-thrown by the catch-all — returning
no partial report; the failure is distinct from both validation
messages. -/
theorem c10_missing_time_fails (city : String) (today : JSDate)
    (geo : FetchOutcome GeocodeData) (wx : FetchOutcome ForecastData)
    (gd : GeocodeData) (first : GeoResult) (rest : List GeoResult)
    (wd : ForecastData) (cw : CurrentWeatherRaw) (daily : DailyRaw)
    (hcity : city ≠ "")
    (hgeo : fetchJSON geo geocodeFailMessage = .ok gd)
    (hres : gd.results = some (first :: rest))
    (hwx : fetchJSON wx weatherFailMessage = .ok wd)
    (hcw : wd.current_weather = some cw)
    (hdaily : wd.daily = some daily)
    (htime : daily.time = none) :
    (getWeather city today geo wx).1 = .error timeUndefinedMessage ∧
    timeUndefinedMessage ≠ currentMissingMessage ∧
    timeUndefinedMessage ≠ dailyMissingMessage ∧
    ∀ report, (getWeather city today geo wx).1 ≠ .ok report := by
  have h := (getWeather_eq_error today hcity hgeo hres hwx).2.2 cw daily hcw hdaily htime
  refine ⟨h, by decide, by decide, fun report hr => ?_⟩
  rw [h] at hr
  exact Except.noConfusion hr

/-- Witness for `c10_missing_time_fails` on the concrete time-less
response. -/
theorem c10_missing_time_fails_witness :
    (getWeather "Paris" dateZero geoParisOutcome (.response true (some noTimeForecast))).1 =
      .error timeUndefinedMessage :=
  (c10_missing_time_fails "Paris" dateZero geoParisOutcome
    (.response true (some noTimeForecast)) parisGeocode parisResult [] noTimeForecast
    { temperature := "18.4", weathercode := some 2 } noTimeDaily
    (by decide) rfl rfl rfl rfl rfl rfl).1

/-- A `daily` block whose date entry carries script markup. -/
def evilDaily : DailyRaw :=
  { time := some ["<script>alert(1)</script>"]
    weathercode := [2]
    temperature_2m_max := ["10.1"]
    temperature_2m_min := ["1.1"]
    sunrise := ["2025-01-01T08:43"]
    sunset := ["2025-01-01T17:04"] }

/-- A forecast response built around `evilDaily`. -/
def evilForecast : ForecastData :=
  { current_weather := some { temperature := "18.4", weathercode := some 2 }
    daily := some evilDaily }

set_option maxRecDepth 100000 in
/-- Claim C6, as stated ("every user- or API-derived string is escaped"),
is false: the forecast date strings from the API are embedded in the
markup without escaping, so an API `daily.time` entry containing
`<script>` reaches the rendered output as raw markup text. -/
theorem c6_counterexample :
    ∃ report,
      (getWeather "Paris" dateZero geoParisOutcome (.response true (some evilForecast))).1 =
        .ok report ∧
      hasSubChars "<script>".data (renderReport report (fun _ => "07:00")).data = true := by
  refine ⟨_, rfl, ?_⟩
  decide

/-- Claim C6 (amended): the city name — the only user-derived string —
is escaped: `renderReport` embeds it solely through
`renderCityHeading`, which applies `escapeHtml`, and `escapeHtml` output
never contains a raw `<` or `>` (in particular `<script>` cannot occur
in it); other API-derived fields (forecast dates, temperatures, raw
sunrise/sunset values) are embedded without escaping. -/
theorem c6_city_escaped (report : WeatherReport) (fmtTime : Option String → String) (s : String) :
    renderReport report fmtTime =
      renderCityHeading report.city ++ renderRest report.currentWeather report.forecast fmtTime ∧
    '<' ∉ (escapeHtml s).data ∧
    '>' ∉ (escapeHtml s).data ∧
    hasSubChars "<script>".data (escapeHtml s).data = false := by
  refine ⟨rfl, (escapeHtml_no_angle s).1, (escapeHtml_no_angle s).2, ?_⟩
  by_contra hne
  rw [Bool.not_eq_false] at hne
  have hcons : ("<script>".data : List Char) = '<' :: "script>".data := rfl
  rw [hcons] at hne
  exact (escapeHtml_no_angle s).1 (mem_of_hasSubChars_cons hne)
